import Mathlib

/-!
Conway's Game of Life on a toroidal grid: `main.c`

A shallow embedding of the grid, the neighbour count, the generation step and the
renderer of `main.c`, followed by the properties the specification states about them.

Conventions of the embedding.

* A C `int` is a Lean `Int`, and the C operator `%`, which truncates towards
  zero, is `Int.tmod`.  The arithmetic of the embedding is the arithmetic of the
  program as long as no `int` operation overflows (overflow is undefined in C).
  `cell_to_index` negates a negative coordinate, so it needs `INT_MIN < x` and
  `INT_MIN < y`; `count_living_neighbors` first adds -1 and 1 to its coordinates,
  `grid_add_glider` adds 1 and 2; the running sum of `count_living_neighbors`
  stays in range when the cells are `DEAD` or `ALIVE`.  A statement over arbitrary
  coordinates carries the hypotheses that keep these operations in range and says
  nothing outside them; the generation step and the renderer only use the
  coordinates -1 .. 20.
* `CellState` is a C `enum`, that is, an `int`; a buffer obtained from `malloc`
  holds arbitrary values until it is written.  A cell is therefore an `Int`, and
  the statements that need cells to be `DEAD` or `ALIVE` say so.
* The buffer `cells` is a list whose length is the allocated size.  An access
  outside the buffer has no defined result: it is `none`.
* A function that takes one `Grid *` and writes through it returns the updated
  grid.  `compute_new_state` takes two pointers, so it runs on a heap of grid
  objects and receives the two addresses; whether they are equal is then a
  property of the call, as in C.
-/

namespace Life

/-! ## Data model (`main.c`, lines 6-22) -/

/-- The C enumeration `CellState`, an `int`. -/
abbrev CellState := Int

/-- Enumerator `DEAD = 0`. -/
def DEAD : CellState := 0

/-- Enumerator `ALIVE = 1`. -/
def ALIVE : CellState := 1

/-- Constant `#define COLS 20`. -/
def COLS : Int := 20

/-- Constant `#define ROWS 20`. -/
def ROWS : Int := 20

/-- The least value of an `int` (32 bits, `<limits.h>`). -/
def INT_MIN : Int := -2147483648

/-- The greatest value of an `int` (32 bits, `<limits.h>`). -/
def INT_MAX : Int := 2147483647

/-- Constant `#define CHAR_ALIVE '*'`. -/
def CHAR_ALIVE : Char := '*'

/-- Constant `#define CHAR_DEAD '.'`. -/
def CHAR_DEAD : Char := '.'

/-- The structure `Grid`: the two dimensions and the cell buffer. -/
structure Grid where
  rows : Int
  cols : Int
  cells : List CellState
deriving DecidableEq

/-- The read `cells[i]`, defined inside the buffer only. -/
def load (cells : List CellState) (i : Int) : Option CellState :=
  if 0 ≤ i then cells[i.toNat]? else none

/-- The write `cells[i] = v`, defined inside the buffer only. -/
def store (cells : List CellState) (i : Int) (v : CellState) : Option (List CellState) :=
  if 0 ≤ i ∧ i.toNat < cells.length then some (cells.set i.toNat v) else none

/-! ## Grid operations (`main.c`, lines 28-82) -/

/-- Function `grid_create`.  The argument `heap` stands for the allocator: `none`
when a `malloc` returns `NULL`, otherwise the arbitrary initial contents of the
fresh `rows*cols` cells. -/
def grid_create (rows cols : Int) (heap : Option (Nat → CellState)) : Option Grid :=
  match heap with
  | none => none
  | some init =>
    some { rows := rows, cols := cols, cells := (List.range (rows * cols).toNat).map init }

/-- Function `cell_to_index`: the four `if` statements in order, then `y*COLS+x`.
The negations `-x` and `-y` are those of the program for coordinates above
`INT_MIN`. -/
def cell_to_index (_grid : Grid) (x y : Int) : Int :=
  let x := if x < 0 then COLS - Int.tmod (-x) COLS else x
  let y := if y < 0 then ROWS - Int.tmod (-y) ROWS else y
  let x := if x ≥ COLS then Int.tmod x COLS else x
  let y := if y ≥ ROWS then Int.tmod y ROWS else y
  y * COLS + x

/-- Function `set_cell`. -/
def set_cell (grid : Grid) (x y : Int) (state : CellState) : Option Grid :=
  (store grid.cells (cell_to_index grid x y) state).map (fun cs => { grid with cells := cs })

/-- Function `get_cell`. -/
def get_cell (grid : Grid) (x y : Int) : Option CellState :=
  load grid.cells (cell_to_index grid x y)

/-! ## Simulation engine (`main.c`, lines 87-119) -/

/-- Function `count_living_neighbors`: `yo` and `xo` run over `-1, 0, 1` in the
order of the two loops, the centre is skipped, every other cell is added.  The sums
`x + xo`, `y + yo` are those of the program when `x - 1`, `y - 1` are above `INT_MIN`
and `x + 1`, `y + 1` at most `INT_MAX`; the running sum is that of the program when
the cells are `DEAD` or `ALIVE`. -/
def count_living_neighbors (grid : Grid) (x y : Int) : Option Int :=
  ([-1, 0, 1] : List Int).foldlM (fun alive yo =>
    ([-1, 0, 1] : List Int).foldlM (fun alive xo =>
      if xo = 0 ∧ yo = 0 then some alive
      else (get_cell grid (x + xo) (y + yo)).map (fun c => alive + c)) alive) 0

/-- The value of `new_state` chosen in the body of `compute_new_state`
(lines 109-115). -/
def new_state (current_state : CellState) (n_alive : Int) : CellState :=
  if current_state = ALIVE then
    (if n_alive = 2 ∨ n_alive = 3 then ALIVE else DEAD)
  else
    (if n_alive = 3 then ALIVE else DEAD)

/-- The grid objects in memory, by address; `none` where no grid lives. -/
abbrev Heap := Nat → Option Grid

/-- One pass of the loop body of `compute_new_state` (lines 107-116) for the cell
`(x, y)`: reads through `old`, writes through `new`. -/
def compute_cell (h : Heap) (old new : Nat) (x y : Int) : Option Heap := do
  let o ← h old
  let n_alive ← count_living_neighbors o x y
  let current_state ← get_cell o x y
  let n ← h new
  let n' ← set_cell n x y (new_state current_state n_alive)
  pure (Function.update h new (some n'))

/-- Function `compute_new_state`: `y` runs over `0 .. old->rows - 1`, and for each
`y`, `x` runs over `0 .. old->cols - 1`.  (No write changes a `rows` or `cols`
field, so the bounds are read once.) -/
def compute_new_state (h : Heap) (old new : Nat) : Option Heap := do
  let o ← h old
  (List.range o.rows.toNat).foldlM (fun h (y : Nat) =>
    (List.range o.cols.toNat).foldlM (fun h (x : Nat) =>
      compute_cell h old new (x : Int) (y : Int)) h) h

/-! ## Renderer (`main.c`, lines 125-133) -/

/-- The text written by the `printf` of `print_grid` (line 126). -/
def CLEAR_SCREEN : List Char := "\x1b[H\x1b[2J\x1b[3J".toList

/-- Function `print_grid`.  The state is the grid together with the text written to
standard output so far: the clear sequence first, then, for `y` over
`0 .. rows - 1`, the glyphs of `x` over `0 .. cols - 1` followed by a newline. -/
def print_grid (grid : Grid) (out : List Char) : Option (Grid × List Char) :=
  (List.range grid.rows.toNat).foldlM (fun st (y : Nat) =>
    ((List.range grid.cols.toNat).foldlM (fun st (x : Nat) =>
      (get_cell st.1 (x : Int) (y : Int)).map (fun c =>
        (st.1, st.2 ++ [if c = ALIVE then CHAR_ALIVE else CHAR_DEAD]))) st).map
      (fun st => (st.1, st.2 ++ ['\n']))) (grid, out ++ CLEAR_SCREEN)

/-! ## Seeding (`main.c`, lines 138-153) -/

/-- Function `grid_set_all`: `i` runs over `0 .. rows - 1` and `cells[i]` is written. -/
def grid_set_all (grid : Grid) (state : CellState) : Option Grid :=
  (List.range grid.rows.toNat).foldlM (fun g (i : Nat) =>
    (store g.cells (i : Int) state).map (fun cs => { g with cells := cs })) grid

/-- Function `grid_add_glider`: the five `set_cell` calls in order.  The sums are
those of the program when `x`, `y` are above `INT_MIN` and `x + 2`, `y + 2` at most
`INT_MAX`. -/
def grid_add_glider (grid : Grid) (x y : Int) : Option Grid := do
  let g ← set_cell grid (x + 1) y ALIVE
  let g ← set_cell g (x + 2) (y + 1) ALIVE
  let g ← set_cell g x (y + 2) ALIVE
  let g ← set_cell g (x + 1) (y + 2) ALIVE
  set_cell g (x + 2) (y + 2) ALIVE

/-! ## Vocabulary of the statements -/

/-- A grid of the default configuration: 20 rows, 20 columns, 400 cells. -/
def Grid.Is20x20 (g : Grid) : Prop :=
  g.rows = ROWS ∧ g.cols = COLS ∧ g.cells.length = 400

instance (g : Grid) : Decidable g.Is20x20 := by
  unfold Grid.Is20x20; infer_instance

/-- Every cell of the buffer holds `DEAD` or `ALIVE`. -/
def Grid.Binary (g : Grid) : Prop :=
  ∀ c ∈ g.cells, c = DEAD ∨ c = ALIVE

instance (g : Grid) : Decidable g.Binary := by
  unfold Grid.Binary; infer_instance

/-- The torus position of `(x, y)` in a row-major buffer of 20 columns. -/
def torusIndex (x y : Int) : Nat := (y % 20 * 20 + x % 20).toNat

/-- The cell of the buffer at the torus position of `(x, y)`. -/
def cellAt (g : Grid) (x y : Int) : CellState := g.cells.getD (torusIndex x y) 0

/-- The sum of the eight cells around `(x, y)` on the torus, in the order in which
`count_living_neighbors` adds them. -/
def neighbourSum (g : Grid) (x y : Int) : Int :=
  cellAt g (x + -1) (y + -1) + cellAt g x (y + -1) + cellAt g (x + 1) (y + -1)
    + cellAt g (x + -1) y + cellAt g (x + 1) y
    + cellAt g (x + -1) (y + 1) + cellAt g x (y + 1) + cellAt g (x + 1) (y + 1)

/-- The state of cell `(x, y)` in the generation after `o`. -/
def nextCell (o : Grid) (x y : Int) : CellState :=
  new_state (cellAt o x y) (neighbourSum o x y)

/-- The buffer of the generation after `o`, row-major. -/
def nextCells (o : Grid) : List CellState :=
  (List.range 400).map (fun i => nextCell o ((i % 20 : Nat) : Int) ((i / 20 : Nat) : Int))

/-- The buffer of `new` when the first `k` cells have been written. -/
def writtenUpTo (o : Grid) (cells : List CellState) (k : Nat) : List CellState :=
  (nextCells o).take k ++ cells.drop k

/-- The generation after `o`, written over the grid `n`. -/
def nextGrid (o n : Grid) : Grid := { n with cells := nextCells o }

/-- The heap once the first `k` cells of the grid at `new` have been written. -/
def heapAfter (h : Heap) (new : Nat) (o n : Grid) (k : Nat) : Heap :=
  Function.update h new (some { n with cells := writtenUpTo o n.cells k })

/-- The 20x20 grid whose living cells are those at the listed `(x, y)` positions. -/
def gridOf (alive : List (Int × Int)) : Grid :=
  { rows := 20, cols := 20,
    cells := (List.range 400).map (fun i =>
      if (((i % 20 : Nat) : Int), ((i / 20 : Nat) : Int)) ∈ alive then ALIVE else DEAD) }

/-- A heap with two grids: `a` at address 0 and `b` at address 1. -/
def twoGrids (a b : Grid) : Heap :=
  fun p => if p = 0 then some a else if p = 1 then some b else none

/-- The offsets `(dx, dy)` with `dx` and `dy` in `{-1, 0, 1}` and `(dx, dy) ≠ (0, 0)`. -/
def mooreOffsets : List (Int × Int) :=
  (List.product [-1, 0, 1] [-1, 0, 1]).filter (fun d => d ≠ (0, 0))

/-- The pattern with living cells `A`, as a function on the torus. -/
def pat (A : List (Int × Int)) (u v : Int) : CellState :=
  if (u % 20, v % 20) ∈ A then ALIVE else DEAD

/-- The generation rule applied to a pattern at `(u, v)`. -/
def patNext (A : List (Int × Int)) (u v : Int) : CellState :=
  new_state (pat A u v)
    (pat A (u + -1) (v + -1) + pat A u (v + -1) + pat A (u + 1) (v + -1)
      + pat A (u + -1) v + pat A (u + 1) v
      + pat A (u + -1) (v + 1) + pat A u (v + 1) + pat A (u + 1) (v + 1))

/-- The grid `g` shows the pattern `A` translated by `(x, y)`. -/
def Shows (g : Grid) (A : List (Int × Int)) (x y : Int) : Prop :=
  ∀ a b : Int, cellAt g a b = pat A (a - x) (b - y)

/-- A 20x20 grid lives at address `p`. -/
def Ready (h : Heap) (p : Nat) : Prop := ∃ g, h p = some g ∧ g.Is20x20

/-- The five cells of the glider stamped at `(x, y)`, at their wrapped coordinates. -/
def gliderCells (x y : Int) : List (Int × Int) :=
  [((x + 1) % 20, y % 20), ((x + 2) % 20, (y + 1) % 20), (x % 20, (y + 2) % 20),
    ((x + 1) % 20, (y + 2) % 20), ((x + 2) % 20, (y + 2) % 20)]

/-- The 20x20 grid with every cell `DEAD`. -/
def deadGrid : Grid := { rows := ROWS, cols := COLS, cells := List.replicate 400 DEAD }

/-- The cells of the 2x2 block at `(x, y)`, at their wrapped coordinates. -/
def blockCells (x y : Int) : List (Int × Int) :=
  [(x % 20, y % 20), ((x + 1) % 20, y % 20), (x % 20, (y + 1) % 20),
    ((x + 1) % 20, (y + 1) % 20)]

/-- What a call that writes only the cell buffer of the grid at `new` may change. -/
def WritesOnlyCells (new : Nat) (h h' : Heap) : Prop :=
  (∀ p, p ≠ new → h' p = h p) ∧
    (h' new).map Grid.rows = (h new).map Grid.rows ∧
    (h' new).map Grid.cols = (h new).map Grid.cols ∧
    (h' new).map (fun g => g.cells.length) = (h new).map (fun g => g.cells.length)

/-- One coordinate after the two wrapping steps of `cell_to_index` (lines 56-65):
the step for a negative value, then the step for a value of 20 or more. -/
def wrapCoord (x : Int) : Int :=
  let x := if x < 0 then COLS - Int.tmod (-x) COLS else x
  if x ≥ COLS then Int.tmod x COLS else x

/-- The glyphs of the first `k` cells of row `y`. -/
def rowText (g : Grid) (y : Nat) (k : Nat) : List Char :=
  (List.range k).map (fun x => if cellAt g (x : Int) (y : Int) = ALIVE then '*' else '.')

/-- The text of the first `k` rows, each closed by a newline. -/
def rowsText (g : Grid) (k : Nat) : List Char :=
  (List.range k).flatMap (fun y => rowText g y 20 ++ ['\n'])

/-! ## Addressing

The hypotheses on `INT_MIN` and `INT_MAX` in the statements below delimit the
coordinates on which the embedding computes what the program computes; the proofs
hold without them, so the unused-variable check is switched off. -/

set_option linter.unusedVariables false

theorem wrap_eq (x : Int) :
    (let x1 := if x < 0 then (20:Int) - Int.tmod (-x) 20 else x
     if x1 ≥ 20 then Int.tmod x1 20 else x1) = x % 20 := by
  simp only []
  by_cases hx : x < 0
  · rw [if_pos hx, Int.tmod_eq_emod (by omega) (by omega)]
    by_cases h2 : (20:Int) - (-x) % 20 ≥ 20
    · rw [if_pos h2, Int.tmod_eq_emod (by omega) (by omega)]; omega
    · rw [if_neg h2]; omega
  · rw [if_neg hx]
    by_cases h2 : x ≥ 20
    · rw [if_pos h2, Int.tmod_eq_emod (by omega) (by omega)]
    · rw [if_neg h2]; omega

theorem cell_to_index_eq (g : Grid) (x y : Int) :
    cell_to_index g x y = y % 20 * 20 + x % 20 := by
  have hx := wrap_eq x
  have hy := wrap_eq y
  simp only [] at hx hy
  simp only [cell_to_index, COLS, ROWS]
  rw [hx, hy]

theorem torusIndex_lt (x y : Int) : torusIndex x y < 400 := by
  unfold torusIndex; omega

theorem cell_to_index_nonneg (g : Grid) (x y : Int) : 0 ≤ cell_to_index g x y := by
  rw [cell_to_index_eq]; omega

theorem cell_to_index_lt (g : Grid) (x y : Int) : cell_to_index g x y < 400 := by
  rw [cell_to_index_eq]; omega

theorem cell_to_index_toNat (g : Grid) (x y : Int) :
    (cell_to_index g x y).toNat = torusIndex x y := by
  rw [cell_to_index_eq]; rfl

theorem torusIndex_eq_iff (x y a b : Int) :
    torusIndex a b = torusIndex x y ↔ a % 20 = x % 20 ∧ b % 20 = y % 20 := by
  unfold torusIndex; omega

theorem torusIndex_of_lt (i : Nat) (hi : i < 400) :
    torusIndex ((i % 20 : Nat) : Int) ((i / 20 : Nat) : Int) = i := by
  unfold torusIndex; omega

/-- Claim C4.  Wrapped addressing is periodic with period 20 in both coordinates:
for all integers `x`, `y`, `k`, `m`, negative ones included, such that the four
coordinates `x`, `y`, `x + k*20`, `y + m*20` are values of type `int` above `INT_MIN`,
`cell_to_index` gives the same index at `(x, y)` and at `(x + k*20, y + m*20)`.  This
holds on every grid, in particular on one of the default configuration. -/
theorem cell_to_index_periodic (g : Grid) (x y k m : Int)
    (hx : INT_MIN < x) (hx' : x ≤ INT_MAX) (hy : INT_MIN < y) (hy' : y ≤ INT_MAX)
    (hxk : INT_MIN < x + k * 20) (hxk' : x + k * 20 ≤ INT_MAX)
    (hym : INT_MIN < y + m * 20) (hym' : y + m * 20 ≤ INT_MAX) :
    cell_to_index g x y = cell_to_index g (x + k * 20) (y + m * 20) := by
  rw [cell_to_index_eq, cell_to_index_eq, Int.add_mul_emod_self, Int.add_mul_emod_self]

theorem cell_to_index_periodic_witness :
    cell_to_index (gridOf []) (-7) 2147483647 =
      cell_to_index (gridOf []) (-7 + 3 * 20) (2147483647 + (-107374182) * 20) :=
  cell_to_index_periodic (gridOf []) (-7) 2147483647 3 (-107374182)
    (by decide) (by decide) (by decide) (by decide)
    (by decide) (by decide) (by decide) (by decide)

/-- Claim C3, at the failing input.  `grid_create 3 3` returns a grid whose buffer has
`3 * 3` cells.  For the coordinates `(2, 2)` of that grid `cell_to_index` is 42, which
is not below 9, and both `get_cell` and `set_cell` leave the buffer there. -/
theorem cell_to_index_escapes_buffer :
    ∃ g, grid_create 3 3 (some (fun _ => DEAD)) = some g ∧ g.rows = 3 ∧ g.cols = 3 ∧
      g.cells.length = 3 * 3 ∧ cell_to_index g 2 2 = 42 ∧ ¬ (cell_to_index g 2 2 < 3 * 3) ∧
      get_cell g 2 2 = none ∧ set_cell g 2 2 ALIVE = none :=
  ⟨_, rfl, rfl, rfl, by decide, by decide, by decide, by decide, by decide⟩

theorem wrapCoord_eq (x : Int) : wrapCoord x = x % 20 := by
  have h := wrap_eq x
  simp only [] at h
  simp only [wrapCoord, COLS]
  exact h

/-- Claim C17.  `cell_to_index` ignores its grid argument: on every grid and for all
`x` and `y` of type `int` above `INT_MIN` it is `20 * (y mod 20) + (x mod 20)` with
the non-negative remainder, so it lies in `[0, 400)` and is the same on any two
grids; `x = -1` gives column 19, and `x = -20` and `x = 20` give column 0. -/
theorem cell_to_index_ignores_grid (g : Grid) (x y : Int)
    (hx : INT_MIN < x) (hx' : x ≤ INT_MAX) (hy : INT_MIN < y) (hy' : y ≤ INT_MAX) :
    cell_to_index g x y = 20 * (y % 20) + x % 20 ∧
      0 ≤ cell_to_index g x y ∧ cell_to_index g x y < 400 ∧
      (∀ g' : Grid, cell_to_index g' x y = cell_to_index g x y) ∧
      cell_to_index g (-1) y = 20 * (y % 20) + 19 ∧
      cell_to_index g (-20) y = 20 * (y % 20) + 0 ∧
      cell_to_index g 20 y = 20 * (y % 20) + 0 := by
  refine ⟨?_, cell_to_index_nonneg g x y, cell_to_index_lt g x y, ?_, ?_, ?_, ?_⟩
  · rw [cell_to_index_eq]; omega
  · intro g'; rw [cell_to_index_eq, cell_to_index_eq]
  · rw [cell_to_index_eq]; omega
  · rw [cell_to_index_eq]; omega
  · rw [cell_to_index_eq]; omega

theorem cell_to_index_ignores_grid_witness :
    cell_to_index (gridOf []) (-2147483647) 2147483647 =
        20 * (2147483647 % 20) + (-2147483647) % 20 ∧
      0 ≤ cell_to_index (gridOf []) (-2147483647) 2147483647 ∧
      cell_to_index (gridOf []) (-2147483647) 2147483647 < 400 ∧
      (∀ g' : Grid, cell_to_index g' (-2147483647) 2147483647 =
        cell_to_index (gridOf []) (-2147483647) 2147483647) ∧
      cell_to_index (gridOf []) (-1) 2147483647 = 20 * (2147483647 % 20) + 19 ∧
      cell_to_index (gridOf []) (-20) 2147483647 = 20 * (2147483647 % 20) + 0 ∧
      cell_to_index (gridOf []) 20 2147483647 = 20 * (2147483647 % 20) + 0 :=
  cell_to_index_ignores_grid (gridOf []) (-2147483647) 2147483647
    (by decide) (by decide) (by decide) (by decide)

/-- Claim C13, at the failing input.  On a grid whose `cols` field is 3,
`cell_to_index` at `(0, 1)` is `1 * COLS + 0 = 20`, while one wrapped row times the
grid's own `cols` is 3: the row stride is the constant, not the field. -/
theorem cell_to_index_stride_not_cols :
    cell_to_index { rows := 3, cols := 3, cells := List.replicate 9 DEAD } 0 1 = 20 ∧
      wrapCoord 1 * (Grid.cols { rows := 3, cols := 3, cells := List.replicate 9 DEAD })
        + wrapCoord 0 = 3 ∧
      cell_to_index { rows := 3, cols := 3, cells := List.replicate 9 DEAD } 0 1 ≠
        wrapCoord 1 * (Grid.cols { rows := 3, cols := 3, cells := List.replicate 9 DEAD })
          + wrapCoord 0 := by
  decide

/-! ## Reading and writing a 20x20 grid -/

theorem get_cell_eq (g : Grid) (hg : g.Is20x20) (x y : Int) :
    get_cell g x y = some (cellAt g x y) := by
  have hlt := torusIndex_lt x y
  have hlen := hg.2.2
  simp only [get_cell, load, cell_to_index_nonneg, if_true, cell_to_index_toNat, cellAt,
    List.getD_eq_getElem?_getD]
  rw [List.getElem?_eq_getElem (by omega)]
  rfl

theorem set_cell_eq (g : Grid) (hg : g.Is20x20) (x y : Int) (s : CellState) :
    set_cell g x y s = some { g with cells := g.cells.set (torusIndex x y) s } := by
  have hlt := torusIndex_lt x y
  have hlen := hg.2.2
  have : torusIndex x y < g.cells.length := by omega
  simp [set_cell, store, cell_to_index_nonneg, cell_to_index_toNat, this]

theorem is20x20_set (g : Grid) (hg : g.Is20x20) (i : Nat) (s : CellState) :
    Grid.Is20x20 { g with cells := g.cells.set i s } :=
  ⟨hg.1, hg.2.1, by simp [hg.2.2]⟩

theorem set_cell_fields (g g' : Grid) (x y : Int) (s : CellState)
    (hset : set_cell g x y s = some g') :
    g'.rows = g.rows ∧ g'.cols = g.cols ∧ g'.cells.length = g.cells.length := by
  unfold set_cell store at hset
  split at hset
  · simp only [Option.map_some', Option.some.injEq] at hset
    subst hset
    simp
  · simp at hset

theorem cellAt_set (g : Grid) (hg : g.Is20x20) (x y a b : Int) (s : CellState) :
    cellAt { g with cells := g.cells.set (torusIndex x y) s } a b =
      if a % 20 = x % 20 ∧ b % 20 = y % 20 then s else cellAt g a b := by
  have hlt := torusIndex_lt x y
  have hlen := hg.2.2
  simp only [cellAt, List.getD_eq_getElem?_getD, List.getElem?_set]
  by_cases h : torusIndex x y = torusIndex a b
  · have h2 := (torusIndex_eq_iff x y a b).1 h.symm
    rw [if_pos h, if_pos h2, if_pos (by omega)]; rfl
  · have h2 : ¬ (a % 20 = x % 20 ∧ b % 20 = y % 20) := fun hh =>
      h ((torusIndex_eq_iff x y a b).2 hh).symm
    rw [if_neg h, if_neg h2]

theorem cellAt_periodic (g : Grid) (x y k m : Int) :
    cellAt g (x + k * 20) (y + m * 20) = cellAt g x y := by
  simp [cellAt, torusIndex]

theorem cellAt_mod (g : Grid) (x y : Int) :
    cellAt g (x % 20) (y % 20) = cellAt g x y := by
  simp [cellAt, torusIndex]

theorem cellAt_congr (g : Grid) (x y a b : Int) (hx : a % 20 = x % 20) (hy : b % 20 = y % 20) :
    cellAt g a b = cellAt g x y := by
  unfold cellAt
  rw [(torusIndex_eq_iff x y a b).2 ⟨hx, hy⟩]

theorem cells_ext (g g' : Grid) (hg : g.cells.length = 400) (hg' : g'.cells.length = 400)
    (h : ∀ x y : Int, 0 ≤ x → x < 20 → 0 ≤ y → y < 20 → cellAt g x y = cellAt g' x y) :
    g.cells = g'.cells := by
  apply List.ext_getElem (by omega)
  intro i h1 h2
  have hi : i < 400 := by omega
  have := h ((i % 20 : Nat) : Int) ((i / 20 : Nat) : Int) (by omega) (by omega) (by omega) (by omega)
  simp only [cellAt, torusIndex_of_lt i hi, List.getD_eq_getElem?_getD] at this
  rw [List.getElem?_eq_getElem h1, List.getElem?_eq_getElem h2] at this
  simpa using this

theorem cellAt_binary (g : Grid) (hg : g.Is20x20) (hb : g.Binary) (x y : Int) :
    cellAt g x y = DEAD ∨ cellAt g x y = ALIVE := by
  have hlt := torusIndex_lt x y
  have hlen := hg.2.2
  apply hb
  simp only [cellAt, List.getD_eq_getElem?_getD]
  rw [List.getElem?_eq_getElem (by omega)]
  exact List.getElem_mem _

theorem gridOf_is20x20 (alive : List (Int × Int)) : (gridOf alive).Is20x20 :=
  ⟨rfl, rfl, by simp [gridOf]⟩

theorem gridOf_binary (alive : List (Int × Int)) : (gridOf alive).Binary := by
  intro c hc
  simp only [gridOf, List.mem_map] at hc
  obtain ⟨i, _, hi⟩ := hc
  rw [← hi]
  split
  · exact Or.inr rfl
  · exact Or.inl rfl

theorem cellAt_gridOf (A : List (Int × Int)) (a b : Int) :
    cellAt (gridOf A) a b = if (a % 20, b % 20) ∈ A then ALIVE else DEAD := by
  have hlt := torusIndex_lt a b
  have h1 : ((torusIndex a b % 20 : Nat) : Int) = a % 20 := by unfold torusIndex; omega
  have h2 : ((torusIndex a b / 20 : Nat) : Int) = b % 20 := by unfold torusIndex; omega
  simp only [cellAt, gridOf, List.getD_eq_getElem?_getD, List.getElem?_map]
  rw [List.getElem?_range hlt]
  simp only [Option.map_some', Option.getD_some, h1, h2]

theorem deadGrid_is20x20 : deadGrid.Is20x20 := ⟨rfl, rfl, List.length_replicate _ _⟩

theorem cellAt_deadGrid (a b : Int) : cellAt deadGrid a b = DEAD := by
  have hlt := torusIndex_lt a b
  simp only [cellAt, deadGrid, List.getD_eq_getElem?_getD]
  rw [List.getElem?_eq_getElem (by rw [List.length_replicate]; exact hlt),
    List.getElem_replicate]
  rfl

/-- Claim C14.  Write/read round trip on a 20x20 grid.  For all `x`, `y` of type
`int` above `INT_MIN` and every state `s`, `set_cell` returns a grid of the same
dimensions in which `get_cell` gives `s` at `(x, y)` and at every
`(x + 20k, y + 20m)`, and gives what it gave before at every `(x2, y2)` that is not
congruent to `(x, y)` modulo 20 in both coordinates (the coordinates read being
values of type `int` above `INT_MIN` as well); the buffer differs from the old one
at one index only. -/
theorem set_get_round_trip (g : Grid) (hg : g.Is20x20) (x y : Int) (s : CellState)
    (hx : INT_MIN < x) (hx' : x ≤ INT_MAX) (hy : INT_MIN < y) (hy' : y ≤ INT_MAX) :
    ∃ g', set_cell g x y s = some g' ∧ g'.rows = g.rows ∧ g'.cols = g.cols ∧
      get_cell g' x y = some s ∧
      (∀ k m : Int, INT_MIN < x + 20 * k → x + 20 * k ≤ INT_MAX →
        INT_MIN < y + 20 * m → y + 20 * m ≤ INT_MAX →
        get_cell g' (x + 20 * k) (y + 20 * m) = some s) ∧
      (∀ x2 y2 : Int, INT_MIN < x2 → x2 ≤ INT_MAX → INT_MIN < y2 → y2 ≤ INT_MAX →
        ¬ (x2 % 20 = x % 20 ∧ y2 % 20 = y % 20) →
        get_cell g' x2 y2 = get_cell g x2 y2) ∧
      ∃ i : Nat, i < 400 ∧ g'.cells = g.cells.set i s := by
  have hg' := is20x20_set g hg (torusIndex x y) s
  refine ⟨_, set_cell_eq g hg x y s, rfl, rfl, ?_, ?_, ?_, torusIndex x y, torusIndex_lt x y, rfl⟩
  · rw [get_cell_eq _ hg', cellAt_set g hg, if_pos ⟨rfl, rfl⟩]
  · intro k m _ _ _ _
    rw [get_cell_eq _ hg', cellAt_set g hg, if_pos ⟨by omega, by omega⟩]
  · intro x2 y2 _ _ _ _ hne
    rw [get_cell_eq _ hg', cellAt_set g hg, if_neg hne, get_cell_eq g hg]

theorem set_get_round_trip_witness :
    ∃ g', set_cell (gridOf [(3, 3)]) (-1) 20 ALIVE = some g' ∧
      g'.rows = (gridOf [(3, 3)]).rows ∧ g'.cols = (gridOf [(3, 3)]).cols ∧
      get_cell g' (-1) 20 = some ALIVE ∧
      (∀ k m : Int, INT_MIN < -1 + 20 * k → -1 + 20 * k ≤ INT_MAX →
        INT_MIN < 20 + 20 * m → 20 + 20 * m ≤ INT_MAX →
        get_cell g' (-1 + 20 * k) (20 + 20 * m) = some ALIVE) ∧
      (∀ x2 y2 : Int, INT_MIN < x2 → x2 ≤ INT_MAX → INT_MIN < y2 → y2 ≤ INT_MAX →
        ¬ (x2 % 20 = (-1) % 20 ∧ y2 % 20 = 20 % 20) →
        get_cell g' x2 y2 = get_cell (gridOf [(3, 3)]) x2 y2) ∧
      ∃ i : Nat, i < 400 ∧ g'.cells = (gridOf [(3, 3)]).cells.set i ALIVE :=
  set_get_round_trip (gridOf [(3, 3)]) (gridOf_is20x20 _) (-1) 20 ALIVE
    (by decide) (by decide) (by decide) (by decide)

/-! ## Counted loops -/

theorem foldlM_range_steps {σ : Type} (f : σ → Nat → Option σ) (I : Nat → σ) (N : Nat)
    (h : ∀ k, k < N → f (I k) k = some (I (k + 1))) :
    (List.range N).foldlM f (I 0) = some (I N) := by
  induction N with
  | zero => rfl
  | succ N ih =>
    rw [List.range_succ, List.foldlM_append, ih (fun k hk => h k (by omega))]
    simp [h N (by omega)]

/-! ## Bulk fill -/

/-- Claim C5, at the failing input.  On the 2x2 grid whose four cells are `ALIVE`,
`grid_set_all grid DEAD` writes the first `rows = 2` cells only: the cells of index 2
and 3 are still `ALIVE` after the call. -/
theorem grid_set_all_stops_at_rows :
    grid_set_all { rows := 2, cols := 2, cells := [ALIVE, ALIVE, ALIVE, ALIVE] } DEAD =
      some { rows := 2, cols := 2, cells := [DEAD, DEAD, ALIVE, ALIVE] } := by
  decide

theorem replicate_drop_set (l : List CellState) (s : CellState) (k : Nat) (hk : k < l.length) :
    (List.replicate k s ++ l.drop k).set k s = List.replicate (k + 1) s ++ l.drop (k + 1) := by
  apply List.ext_getElem?
  intro j
  simp only [List.getElem?_set, List.getElem?_append, List.getElem?_replicate,
    List.getElem?_drop, List.length_replicate, List.length_append, List.length_drop]
  by_cases hj : k = j
  · subst hj
    rw [if_pos rfl, if_pos (by omega), if_pos (by omega), if_pos (by omega)]
  · rw [if_neg hj]
    by_cases hlt : j < k
    · rw [if_pos hlt, if_pos hlt, if_pos (by omega), if_pos (by omega)]
    · rw [if_neg hlt, if_neg (by omega)]
      congr 1
      omega

theorem grid_set_all_eq (g : Grid) (s : CellState) (hlen : g.rows.toNat ≤ g.cells.length) :
    grid_set_all g s = some { g with
      cells := List.replicate g.rows.toNat s ++ g.cells.drop g.rows.toNat } := by
  have key := foldlM_range_steps
    (fun (t : Grid) (i : Nat) =>
      (store t.cells (i : Int) s).map (fun cs => { t with cells := cs }))
    (fun k => { g with cells := List.replicate k s ++ g.cells.drop k }) g.rows.toNat
    (fun k hk => by
      have h1 : k < (List.replicate k s ++ List.drop k g.cells).length := by
        simp only [List.length_append, List.length_replicate, List.length_drop]; omega
      simp only [store, Int.toNat_ofNat, Int.ofNat_nonneg, h1, and_self, if_true,
        Option.map_some', replicate_drop_set g.cells s k (by omega)])
  simpa [grid_set_all] using key

/-- Claim C16.  On every grid with `rows >= 1`, `cols >= 1` and a buffer of
`rows * cols` cells, `grid_set_all` returns a grid of the same dimensions and buffer
size in which the cells of index `0 <= i < rows` hold `s` and every cell of index
`rows <= i < rows * cols` holds the value it held before. -/
theorem grid_set_all_first_rows (g : Grid) (s : CellState) (hr : 1 ≤ g.rows) (hc : 1 ≤ g.cols)
    (hlen : (g.cells.length : Int) = g.rows * g.cols) :
    ∃ g', grid_set_all g s = some g' ∧ g'.rows = g.rows ∧ g'.cols = g.cols ∧
      g'.cells.length = g.cells.length ∧
      (∀ i : Nat, (i : Int) < g.rows → g'.cells[i]? = some s) ∧
      (∀ i : Nat, g.rows ≤ (i : Int) → (i : Int) < g.rows * g.cols →
        g'.cells[i]? = g.cells[i]?) := by
  have hle : g.rows ≤ g.rows * g.cols := le_mul_of_one_le_right (by omega) hc
  have hn : g.rows.toNat ≤ g.cells.length := by omega
  refine ⟨_, grid_set_all_eq g s hn, rfl, rfl, ?_, ?_, ?_⟩
  · simp only [List.length_append, List.length_replicate, List.length_drop]; omega
  · intro i hi
    simp only [List.getElem?_append, List.length_replicate, List.getElem?_replicate]
    rw [if_pos (by omega), if_pos (by omega)]
  · intro i hi1 hi2
    simp only [List.getElem?_append, List.length_replicate, List.getElem?_drop]
    rw [if_neg (by omega)]
    congr 1
    omega

theorem grid_set_all_first_rows_witness :
    ∃ g', grid_set_all { rows := 3, cols := 2, cells := [5, 6, 7, 8, 9, 10] } DEAD = some g' ∧
      g'.rows = 3 ∧ g'.cols = 2 ∧ g'.cells.length = 6 ∧
      (∀ i : Nat, (i : Int) < 3 → g'.cells[i]? = some DEAD) ∧
      (∀ i : Nat, 3 ≤ (i : Int) → (i : Int) < 3 * 2 →
        g'.cells[i]? = ([5, 6, 7, 8, 9, 10] : List CellState)[i]?) :=
  grid_set_all_first_rows { rows := 3, cols := 2, cells := [5, 6, 7, 8, 9, 10] } DEAD
    (by decide) (by decide) (by decide)

/-! ## Neighbour count -/

theorem count_living_neighbors_eq (g : Grid) (hg : g.Is20x20) (x y : Int) :
    count_living_neighbors g x y = some (neighbourSum g x y) := by
  simp [count_living_neighbors, List.foldlM, get_cell_eq g hg, neighbourSum]

theorem neighbourSum_congr (g : Grid) (x y a b : Int) (hx : a % 20 = x % 20)
    (hy : b % 20 = y % 20) : neighbourSum g a b = neighbourSum g x y := by
  unfold neighbourSum
  rw [cellAt_congr g (x + -1) (y + -1) (a + -1) (b + -1) (by omega) (by omega),
    cellAt_congr g x (y + -1) a (b + -1) (by omega) (by omega),
    cellAt_congr g (x + 1) (y + -1) (a + 1) (b + -1) (by omega) (by omega),
    cellAt_congr g (x + -1) y (a + -1) b (by omega) (by omega),
    cellAt_congr g (x + 1) y (a + 1) b (by omega) (by omega),
    cellAt_congr g (x + -1) (y + 1) (a + -1) (b + 1) (by omega) (by omega),
    cellAt_congr g x (y + 1) a (b + 1) (by omega) (by omega),
    cellAt_congr g (x + 1) (y + 1) (a + 1) (b + 1) (by omega) (by omega)]

theorem mooreOffsets_eq :
    mooreOffsets = [(-1, -1), (-1, 0), (-1, 1), (0, -1), (0, 1), (1, -1), (1, 0), (1, 1)] := by
  decide

theorem sum_cells_eq_countP (g : Grid) (hg : g.Is20x20) (hb : g.Binary) (x y : Int)
    (L : List (Int × Int)) :
    (L.map (fun d => cellAt g (x + d.1) (y + d.2))).sum =
      (L.countP (fun d => cellAt g (x + d.1) (y + d.2) = ALIVE) : Nat) := by
  induction L with
  | nil => simp
  | cons d L ih =>
    rw [List.map_cons, List.sum_cons, ih, List.countP_cons]
    rcases cellAt_binary g hg hb (x + d.1) (y + d.2) with h | h
    · simp [h, DEAD, ALIVE]
    · simp [h, ALIVE]
      exact add_comm _ _

theorem neighbourSum_eq_sum (g : Grid) (x y : Int) :
    neighbourSum g x y = (mooreOffsets.map (fun d => cellAt g (x + d.1) (y + d.2))).sum := by
  rw [mooreOffsets_eq]
  simp only [neighbourSum, List.map_cons, List.map_nil, List.sum_cons, List.sum_nil, add_zero]
  omega

/-- Claim C2.  On a 20x20 grid whose cells are `DEAD` or `ALIVE`, for all integers
`x` and `y` whose neighbours are values of type `int` above `INT_MIN` (that is,
`INT_MIN < x - 1`, `x + 1 <= INT_MAX`, and the same for `y`),
`count_living_neighbors` returns a number between 0 and 8, which is the number of
offsets `(dx, dy)` of the Moore neighbourhood (centre excluded) at which
`get_cell grid (x + dx) (y + dy)` is `ALIVE`; and each of these reads is the cell at
row `(y + dy) mod 20` and column `(x + dx) mod 20` of the buffer. -/
theorem count_living_neighbors_spec (g : Grid) (hg : g.Is20x20) (hb : g.Binary) (x y : Int)
    (hx : INT_MIN < x - 1) (hx' : x + 1 ≤ INT_MAX)
    (hy : INT_MIN < y - 1) (hy' : y + 1 ≤ INT_MAX) :
    ∃ k : Int, count_living_neighbors g x y = some k ∧ 0 ≤ k ∧ k ≤ 8 ∧
      k = (mooreOffsets.countP (fun d => get_cell g (x + d.1) (y + d.2) = some ALIVE) : Nat) ∧
      ∀ d ∈ mooreOffsets, get_cell g (x + d.1) (y + d.2) =
        g.cells[((y + d.2) % 20 * 20 + (x + d.1) % 20).toNat]? := by
  have hcount : (mooreOffsets.countP (fun d => get_cell g (x + d.1) (y + d.2) = some ALIVE)) =
      (mooreOffsets.countP (fun d => cellAt g (x + d.1) (y + d.2) = ALIVE)) := by
    apply List.countP_congr
    intro d _
    simp [get_cell_eq g hg]
  have hle := List.countP_le_length (fun d => decide (cellAt g (x + d.1) (y + d.2) = ALIVE))
    (l := mooreOffsets)
  have hlen : mooreOffsets.length = 8 := by decide
  refine ⟨neighbourSum g x y, count_living_neighbors_eq g hg x y, ?_, ?_, ?_, ?_⟩
  · rw [neighbourSum_eq_sum, sum_cells_eq_countP g hg hb]; omega
  · rw [neighbourSum_eq_sum, sum_cells_eq_countP g hg hb]; omega
  · rw [neighbourSum_eq_sum, sum_cells_eq_countP g hg hb, hcount]
  · intro d _
    have hlt := torusIndex_lt (x + d.1) (y + d.2)
    have hl := hg.2.2
    rw [get_cell_eq g hg, cellAt, List.getD_eq_getElem?_getD, torusIndex,
      List.getElem?_eq_getElem (by unfold torusIndex at hlt; omega)]
    rfl

theorem count_living_neighbors_spec_witness :
    ∃ k : Int, count_living_neighbors (gridOf [(19, 5), (1, 5), (0, 5), (0, 6)]) 0 5 = some k ∧
      0 ≤ k ∧ k ≤ 8 ∧
      k = (mooreOffsets.countP (fun d =>
        get_cell (gridOf [(19, 5), (1, 5), (0, 5), (0, 6)]) (0 + d.1) (5 + d.2) = some ALIVE) : Nat) ∧
      ∀ d ∈ mooreOffsets, get_cell (gridOf [(19, 5), (1, 5), (0, 5), (0, 6)]) (0 + d.1) (5 + d.2) =
        (gridOf [(19, 5), (1, 5), (0, 5), (0, 6)]).cells[((5 + d.2) % 20 * 20 + (0 + d.1) % 20).toNat]? :=
  count_living_neighbors_spec _ (gridOf_is20x20 _) (gridOf_binary _) 0 5
    (by decide) (by decide) (by decide) (by decide)

/-! ## The generation step on two distinct 20x20 grids -/

theorem nextCells_length (o : Grid) : (nextCells o).length = 400 := by
  simp [nextCells]

theorem writtenUpTo_length (o : Grid) (cells : List CellState) (k : Nat)
    (hc : cells.length = 400) (hk : k ≤ 400) : (writtenUpTo o cells k).length = 400 := by
  simp [writtenUpTo, nextCells_length, hc]; omega

theorem writtenUpTo_zero (o : Grid) (cells : List CellState) : writtenUpTo o cells 0 = cells := by
  simp [writtenUpTo]

theorem writtenUpTo_all (o : Grid) (cells : List CellState) (hc : cells.length = 400) :
    writtenUpTo o cells 400 = nextCells o := by
  have h1 : List.take 400 (nextCells o) = nextCells o :=
    List.take_of_length_le (by rw [nextCells_length])
  have h2 : List.drop 400 cells = [] := List.drop_of_length_le (by omega)
  simp [writtenUpTo, h1, h2]

theorem writtenUpTo_set (o : Grid) (cells : List CellState) (hc : cells.length = 400)
    (x y : Nat) (hx : x < 20) (hy : y < 20) :
    (writtenUpTo o cells (20 * y + x)).set (torusIndex (x : Int) (y : Int)) (nextCell o x y) =
      writtenUpTo o cells (20 * y + x + 1) := by
  have hidx : torusIndex (x : Int) (y : Int) = 20 * y + x := by unfold torusIndex; omega
  have hnl := nextCells_length o
  rw [hidx]
  apply List.ext_getElem?
  intro j
  have hk : (nextCells o)[20 * y + x]? = some (nextCell o x y) := by
    have h1 : (20 * y + x) % 20 = x := by omega
    have h2 : (20 * y + x) / 20 = y := by omega
    simp only [nextCells]
    rw [List.getElem?_map, List.getElem?_range (by omega), Option.map_some', h1, h2]
  simp only [writtenUpTo, List.getElem?_set, List.getElem?_append, List.getElem?_take,
    List.getElem?_drop, List.length_take, List.length_append, List.length_drop, hnl, hc]
  by_cases hj : 20 * y + x = j
  · subst hj
    have e1 : min (20 * y + x) 400 = 20 * y + x := by omega
    rw [if_pos rfl, e1, if_pos (by omega), if_pos (by omega), if_pos (by omega), hk]
  · rw [if_neg hj]
    have e1 : min (20 * y + x) 400 = 20 * y + x := by omega
    have e2 : min (20 * y + x + 1) 400 = 20 * y + x + 1 := by omega
    rw [e1, e2]
    by_cases hlt : j < 20 * y + x
    · rw [if_pos hlt, if_pos hlt, if_pos (by omega), if_pos (by omega)]
    · rw [if_neg hlt, if_neg (by omega)]
      congr 1
      omega

theorem compute_cell_eq (h : Heap) (old new : Nat) (o n : Grid)
    (ho : h old = some o) (hn : h new = some n) (ho20 : o.Is20x20) (hn20 : n.Is20x20)
    (x y : Int) :
    compute_cell h old new x y =
      some (Function.update h new
        (some { n with cells := n.cells.set (torusIndex x y) (nextCell o x y) })) := by
  simp [compute_cell, ho, hn, count_living_neighbors_eq o ho20, get_cell_eq o ho20,
    set_cell_eq n hn20, nextCell]

theorem compute_cell_step (h : Heap) (old new : Nat) (hne : old ≠ new) (o n : Grid)
    (ho : h old = some o) (ho20 : o.Is20x20) (hn20 : n.Is20x20)
    (x y : Nat) (hx : x < 20) (hy : y < 20) :
    compute_cell (heapAfter h new o n (20 * y + x)) old new (x : Int) (y : Int) =
      some (heapAfter h new o n (20 * y + x + 1)) := by
  have hlen := writtenUpTo_length o n.cells (20 * y + x) hn20.2.2 (by omega)
  rw [compute_cell_eq (heapAfter h new o n (20 * y + x)) old new o
    { n with cells := writtenUpTo o n.cells (20 * y + x) }
    (by simp [heapAfter, Function.update_noteq hne, ho])
    (by simp [heapAfter]) ho20 ⟨hn20.1, hn20.2.1, hlen⟩]
  simp only [heapAfter, Function.update_idem]
  rw [writtenUpTo_set o n.cells hn20.2.2 x y hx hy]

theorem compute_row (h : Heap) (old new : Nat) (hne : old ≠ new) (o n : Grid)
    (ho : h old = some o) (ho20 : o.Is20x20) (hn20 : n.Is20x20) (y : Nat) (hy : y < 20) :
    (List.range 20).foldlM (fun h (x : Nat) => compute_cell h old new (x : Int) (y : Int))
        (heapAfter h new o n (20 * y)) =
      some (heapAfter h new o n (20 * (y + 1))) :=
  foldlM_range_steps (fun h (x : Nat) => compute_cell h old new (x : Int) (y : Int))
    (fun x => heapAfter h new o n (20 * y + x)) 20
    (fun x hx => compute_cell_step h old new hne o n ho ho20 hn20 x y hx hy)

theorem compute_new_state_eq (h : Heap) (old new : Nat) (hne : old ≠ new) (o n : Grid)
    (ho : h old = some o) (hn : h new = some n) (ho20 : o.Is20x20) (hn20 : n.Is20x20) :
    compute_new_state h old new = some (Function.update h new (some (nextGrid o n))) := by
  have hr : o.rows.toNat = 20 := by rw [ho20.1]; rfl
  have hc : o.cols.toNat = 20 := by rw [ho20.2.1]; rfl
  have h0 : heapAfter h new o n (20 * 0) = h := by
    simp [heapAfter, writtenUpTo_zero, ← hn]
  have hall : heapAfter h new o n (20 * 20) = Function.update h new (some (nextGrid o n)) := by
    simp [heapAfter, writtenUpTo_all o n.cells hn20.2.2, nextGrid]
  have key := foldlM_range_steps
    (fun h (y : Nat) =>
      (List.range 20).foldlM (fun h (x : Nat) => compute_cell h old new (x : Int) (y : Int)) h)
    (fun y => heapAfter h new o n (20 * y)) 20
    (fun y hy => compute_row h old new hne o n ho ho20 hn20 y hy)
  simp only [h0, hall] at key
  simp only [compute_new_state, ho, Option.bind_eq_bind, Option.some_bind, hr, hc]
  exact key

theorem nextGrid_is20x20 (o n : Grid) (hn : n.Is20x20) : (nextGrid o n).Is20x20 :=
  ⟨hn.1, hn.2.1, nextCells_length o⟩

theorem nextCell_congr (g : Grid) (x y a b : Int) (hx : a % 20 = x % 20)
    (hy : b % 20 = y % 20) : nextCell g a b = nextCell g x y := by
  unfold nextCell
  rw [cellAt_congr g x y a b hx hy, neighbourSum_congr g x y a b hx hy]

theorem cellAt_nextGrid (o n : Grid) (x y : Int) :
    cellAt (nextGrid o n) x y = nextCell o x y := by
  have hlt := torusIndex_lt x y
  simp only [cellAt, nextGrid, nextCells, List.getD_eq_getElem?_getD, List.getElem?_map]
  rw [List.getElem?_range hlt]
  simp only [Option.map_some', Option.getD_some]
  apply nextCell_congr
  · unfold torusIndex; omega
  · unfold torusIndex; omega

/-- Claim C1.  Two distinct 20x20 grids `old` and `new`, the cells of `old` being
`DEAD` or `ALIVE`: `compute_new_state` returns, and in the grid it leaves at `new`
the cell `(x, y)`, for `0 <= x, y < 20`, is `ALIVE` when the cell of `old` is `ALIVE`
with 2 or 3 living neighbours or `DEAD` with exactly 3, and `DEAD` in every other
case. -/
theorem compute_new_state_rule (h : Heap) (old new : Nat) (o n : Grid)
    (hne : old ≠ new) (ho : h old = some o) (hn : h new = some n)
    (ho20 : o.Is20x20) (hn20 : n.Is20x20) (hob : o.Binary) :
    ∃ h' n', compute_new_state h old new = some h' ∧ h' new = some n' ∧
      ∀ x y : Int, 0 ≤ x → x < 20 → 0 ≤ y → y < 20 →
        ∃ c k, get_cell o x y = some c ∧ count_living_neighbors o x y = some k ∧
          (c = DEAD ∨ c = ALIVE) ∧
          (((c = ALIVE ∧ (k = 2 ∨ k = 3)) ∨ (c = DEAD ∧ k = 3)) →
            get_cell n' x y = some ALIVE) ∧
          (¬ ((c = ALIVE ∧ (k = 2 ∨ k = 3)) ∨ (c = DEAD ∧ k = 3)) →
            get_cell n' x y = some DEAD) := by
  refine ⟨_, nextGrid o n, compute_new_state_eq h old new hne o n ho hn ho20 hn20,
    by simp, ?_⟩
  intro x y _ _ _ _
  refine ⟨cellAt o x y, neighbourSum o x y, get_cell_eq o ho20 x y,
    count_living_neighbors_eq o ho20 x y, cellAt_binary o ho20 hob x y, ?_, ?_⟩
  · intro hc
    rw [get_cell_eq _ (nextGrid_is20x20 o n hn20), cellAt_nextGrid, nextCell, new_state]
    rcases hc with ⟨h1, h2⟩ | ⟨h1, h2⟩
    · rw [if_pos h1, if_pos h2]
    · rw [if_neg (by rw [h1]; decide), if_pos h2]
  · intro hc
    rw [get_cell_eq _ (nextGrid_is20x20 o n hn20), cellAt_nextGrid, nextCell, new_state]
    by_cases h1 : cellAt o x y = ALIVE
    · rw [if_pos h1, if_neg (fun h2 => hc (Or.inl ⟨h1, h2⟩))]
    · rcases cellAt_binary o ho20 hob x y with h3 | h3
      · rw [if_neg h1, if_neg (fun h2 => hc (Or.inr ⟨h3, h2⟩))]
      · exact absurd h3 h1

theorem compute_new_state_rule_witness :
    ∃ h' n', compute_new_state (twoGrids (gridOf [(1, 0), (2, 1), (0, 2), (1, 2), (2, 2)])
        (gridOf [])) 0 1 = some h' ∧ h' 1 = some n' ∧
      ∀ x y : Int, 0 ≤ x → x < 20 → 0 ≤ y → y < 20 →
        ∃ c k, get_cell (gridOf [(1, 0), (2, 1), (0, 2), (1, 2), (2, 2)]) x y = some c ∧
          count_living_neighbors (gridOf [(1, 0), (2, 1), (0, 2), (1, 2), (2, 2)]) x y = some k ∧
          (c = DEAD ∨ c = ALIVE) ∧
          (((c = ALIVE ∧ (k = 2 ∨ k = 3)) ∨ (c = DEAD ∧ k = 3)) →
            get_cell n' x y = some ALIVE) ∧
          (¬ ((c = ALIVE ∧ (k = 2 ∨ k = 3)) ∨ (c = DEAD ∧ k = 3)) →
            get_cell n' x y = some DEAD) :=
  compute_new_state_rule (twoGrids (gridOf [(1, 0), (2, 1), (0, 2), (1, 2), (2, 2)]) (gridOf []))
    0 1 _ _ (by decide) rfl rfl (gridOf_is20x20 _) (gridOf_is20x20 _) (gridOf_binary _)

/-- Claim C9.  The result depends on `old` alone.  The same 20x20 grid `o` is the
`old` of two calls whose targets are 20x20 grids `n1` and `n2` of arbitrary
contents (in the same heap or in two heaps).  Both calls return, and the grids they
leave at their targets are equal: all 400 cells agree, nothing of `n1` or `n2`
survives. -/
theorem compute_new_state_old_alone (h1 h2 : Heap) (old1 new1 old2 new2 : Nat)
    (o n1 n2 : Grid) (hne1 : old1 ≠ new1) (hne2 : old2 ≠ new2)
    (ho1 : h1 old1 = some o) (ho2 : h2 old2 = some o)
    (hn1 : h1 new1 = some n1) (hn2 : h2 new2 = some n2)
    (ho20 : o.Is20x20) (hn1ok : n1.Is20x20) (hn2ok : n2.Is20x20) :
    ∃ h1' h2' r1 r2, compute_new_state h1 old1 new1 = some h1' ∧
      compute_new_state h2 old2 new2 = some h2' ∧
      h1' new1 = some r1 ∧ h2' new2 = some r2 ∧
      r1.cells.length = 400 ∧ r1.cells = r2.cells ∧
      ∀ x y : Int, get_cell r1 x y = get_cell r2 x y := by
  refine ⟨_, _, nextGrid o n1, nextGrid o n2,
    compute_new_state_eq h1 old1 new1 hne1 o n1 ho1 hn1 ho20 hn1ok,
    compute_new_state_eq h2 old2 new2 hne2 o n2 ho2 hn2 ho20 hn2ok,
    by simp, by simp, nextCells_length o, rfl, ?_⟩
  intro x y
  rw [get_cell_eq _ (nextGrid_is20x20 o n1 hn1ok), get_cell_eq _ (nextGrid_is20x20 o n2 hn2ok),
    cellAt_nextGrid, cellAt_nextGrid]

theorem compute_new_state_old_alone_witness :
    ∃ h1' h2' r1 r2,
      compute_new_state (twoGrids (gridOf (gliderCells 3 4)) deadGrid) 0 1 = some h1' ∧
      compute_new_state (twoGrids (gridOf (blockCells 7 7)) (gridOf (gliderCells 3 4))) 1 0
        = some h2' ∧
      h1' 1 = some r1 ∧ h2' 0 = some r2 ∧
      r1.cells.length = 400 ∧ r1.cells = r2.cells ∧
      ∀ x y : Int, get_cell r1 x y = get_cell r2 x y :=
  compute_new_state_old_alone (twoGrids (gridOf (gliderCells 3 4)) deadGrid)
    (twoGrids (gridOf (blockCells 7 7)) (gridOf (gliderCells 3 4))) 0 1 1 0
    (gridOf (gliderCells 3 4)) deadGrid (gridOf (blockCells 7 7))
    (by decide) (by decide) rfl rfl rfl rfl
    (gridOf_is20x20 _) deadGrid_is20x20 (gridOf_is20x20 _)

/-! ## What the generation step may write -/

theorem writesOnlyCells_refl (new : Nat) (h : Heap) : WritesOnlyCells new h h :=
  ⟨fun _ _ => rfl, rfl, rfl, rfl⟩

theorem writesOnlyCells_trans (new : Nat) (h h' h'' : Heap) (a : WritesOnlyCells new h h')
    (b : WritesOnlyCells new h' h'') : WritesOnlyCells new h h'' :=
  ⟨fun p hp => (b.1 p hp).trans (a.1 p hp), b.2.1.trans a.2.1, b.2.2.1.trans a.2.2.1,
    b.2.2.2.trans a.2.2.2⟩

theorem foldlM_preserves {σ α : Type} (R : σ → σ → Prop) (hrefl : ∀ s, R s s)
    (htrans : ∀ s s' s'', R s s' → R s' s'' → R s s'') (f : σ → α → Option σ)
    (hf : ∀ s a s', f s a = some s' → R s s') (l : List α) :
    ∀ s s', l.foldlM f s = some s' → R s s' := by
  induction l with
  | nil =>
    intro s s' hs
    simp only [List.foldlM_nil] at hs
    cases hs
    exact hrefl s
  | cons a l ih =>
    intro s s' hs
    rw [List.foldlM_cons] at hs
    cases hfa : f s a with
    | none => rw [hfa] at hs; cases hs
    | some s1 =>
      rw [hfa] at hs
      exact htrans s s1 s' (hf s a s1 hfa) (ih s1 s' hs)

theorem compute_cell_frame (h h' : Heap) (old new : Nat) (x y : Int)
    (hrun : compute_cell h old new x y = some h') : WritesOnlyCells new h h' := by
  unfold compute_cell at hrun
  simp only [Option.bind_eq_bind, Option.bind_eq_some, Option.pure_def, Option.some.injEq] at hrun
  obtain ⟨o, _, k, _, c, _, n, hn, n', hset, rfl⟩ := hrun
  obtain ⟨e1, e2, e3⟩ := set_cell_fields n n' x y _ hset
  refine ⟨fun p hp => Function.update_noteq hp _ _, ?_, ?_, ?_⟩ <;>
    simp [hn, e1, e2, e3]

theorem compute_new_state_writes (h h' : Heap) (old new : Nat)
    (hrun : compute_new_state h old new = some h') : WritesOnlyCells new h h' := by
  unfold compute_new_state at hrun
  simp only [Option.bind_eq_bind, Option.bind_eq_some] at hrun
  obtain ⟨o, _, hloop⟩ := hrun
  refine foldlM_preserves (WritesOnlyCells new) (writesOnlyCells_refl new)
    (writesOnlyCells_trans new) _ ?_ _ h h' hloop
  intro s y s' hrow
  refine foldlM_preserves (WritesOnlyCells new) (writesOnlyCells_refl new)
    (writesOnlyCells_trans new) _ ?_ _ s s' hrow
  intro t x t' hcell
  exact compute_cell_frame t t' old new _ _ hcell

/-- The frame of a call that returns.  When `old` and `new` are distinct grids and
`compute_new_state` returns, the grid at `old` is what it was before the call (rows,
cols and every cell), so is every grid other than the one at `new`, and the grid at
`new` keeps its rows, its cols and the size of its buffer. -/
theorem compute_new_state_frame (h h' : Heap) (old new : Nat) (hne : old ≠ new)
    (hrun : compute_new_state h old new = some h') :
    h' old = h old ∧ (∀ p, p ≠ new → h' p = h p) ∧
      (h' new).map Grid.rows = (h new).map Grid.rows ∧
      (h' new).map Grid.cols = (h new).map Grid.cols ∧
      (h' new).map (fun g => g.cells.length) = (h new).map (fun g => g.cells.length) := by
  have key := compute_new_state_writes h h' old new hrun
  exact ⟨key.1 old hne, key.1, key.2.1, key.2.2.1, key.2.2.2⟩

/-- The frame on the default configuration: for distinct 20x20 grids the call
returns, and the frame above holds of the heap it returns. -/
theorem compute_new_state_frame_20x20 (h : Heap) (old new : Nat) (o n : Grid)
    (hne : old ≠ new) (ho : h old = some o) (hn : h new = some n)
    (ho20 : o.Is20x20) (hn20 : n.Is20x20) :
    ∃ h', compute_new_state h old new = some h' ∧ h' old = h old ∧
      (∀ p, p ≠ new → h' p = h p) ∧
      (h' new).map Grid.rows = (h new).map Grid.rows ∧
      (h' new).map Grid.cols = (h new).map Grid.cols ∧
      (h' new).map (fun g => g.cells.length) = (h new).map (fun g => g.cells.length) :=
  ⟨_, compute_new_state_eq h old new hne o n ho hn ho20 hn20,
    compute_new_state_frame h _ old new hne
      (compute_new_state_eq h old new hne o n ho hn ho20 hn20)⟩

/-! ## Rendering -/

theorem rowText_succ (g : Grid) (y k : Nat) :
    rowText g y (k + 1) =
      rowText g y k ++ [if cellAt g (k : Int) (y : Int) = ALIVE then '*' else '.'] := by
  simp [rowText, List.range_succ]

theorem rowsText_succ (g : Grid) (k : Nat) :
    rowsText g (k + 1) = rowsText g k ++ (rowText g k 20 ++ ['\n']) := by
  simp [rowsText, List.range_succ, List.flatMap_append]

theorem print_row (g : Grid) (hg : g.Is20x20) (y : Nat) (base : List Char) :
    (List.range 20).foldlM (fun (st : Grid × List Char) (x : Nat) =>
        (get_cell st.1 (x : Int) (y : Int)).map (fun c =>
          (st.1, st.2 ++ [if c = ALIVE then CHAR_ALIVE else CHAR_DEAD]))) (g, base) =
      some (g, base ++ rowText g y 20) := by
  have key := foldlM_range_steps
    (fun (st : Grid × List Char) (x : Nat) =>
      (get_cell st.1 (x : Int) (y : Int)).map (fun c =>
        (st.1, st.2 ++ [if c = ALIVE then CHAR_ALIVE else CHAR_DEAD])))
    (fun x => (g, base ++ rowText g y x)) 20
    (fun x _ => by
      simp only [get_cell_eq g hg, Option.map_some', rowText_succ, CHAR_ALIVE, CHAR_DEAD,
        List.append_assoc])
  simpa [rowText] using key

theorem print_grid_eq (g : Grid) (hg : g.Is20x20) (out : List Char) :
    print_grid g out = some (g, out ++ CLEAR_SCREEN ++ rowsText g 20) := by
  have hr : g.rows.toNat = 20 := by rw [hg.1]; rfl
  have hc : g.cols.toNat = 20 := by rw [hg.2.1]; rfl
  have key := foldlM_range_steps
    (fun (st : Grid × List Char) (y : Nat) =>
      ((List.range 20).foldlM (fun (st : Grid × List Char) (x : Nat) =>
        (get_cell st.1 (x : Int) (y : Int)).map (fun c =>
          (st.1, st.2 ++ [if c = ALIVE then CHAR_ALIVE else CHAR_DEAD]))) st).map
        (fun st => (st.1, st.2 ++ ['\n'])))
    (fun y => (g, out ++ CLEAR_SCREEN ++ rowsText g y)) 20
    (fun y _ => by
      simp only [print_row g hg y, Option.map_some', rowsText_succ, List.append_assoc])
  simp only [print_grid, hr, hc]
  simpa [rowsText] using key

/-- Claim C15.  On a 20x20 grid whose cells are `DEAD` or `ALIVE`, `print_grid`
returns, leaves the grid as it was, and appends to the output exactly `ESC [ H`,
`ESC [ 2 J`, `ESC [ 3 J` followed by 20 lines; line `y` is the 20 characters for
`x = 0 .. 19`, `*` where `get_cell grid x y` is `ALIVE` and `.` where it is `DEAD`
(every cell is one or the other), followed by one newline. -/
theorem print_grid_text (g : Grid) (hg : g.Is20x20) (hb : g.Binary) (out : List Char) :
    print_grid g out = some (g,
      out ++ [Char.ofNat 27, '[', 'H', Char.ofNat 27, '[', '2', 'J', Char.ofNat 27, '[', '3', 'J']
        ++ (List.range 20).flatMap (fun y =>
            (List.range 20).map (fun x =>
              if get_cell g (x : Int) (y : Int) = some ALIVE then '*' else '.') ++ ['\n'])) ∧
      ∀ x y : Nat, x < 20 → y < 20 →
        get_cell g (x : Int) (y : Int) = some ALIVE ∨
          get_cell g (x : Int) (y : Int) = some DEAD := by
  constructor
  · rw [print_grid_eq g hg out]
    have hclear : CLEAR_SCREEN =
        [Char.ofNat 27, '[', 'H', Char.ofNat 27, '[', '2', 'J', Char.ofNat 27, '[', '3', 'J'] := by
      decide
    simp only [hclear, rowsText, rowText, get_cell_eq g hg, Option.some.injEq]
  · intro x y _ _
    rw [get_cell_eq g hg]
    rcases cellAt_binary g hg hb x y with h | h
    · exact Or.inr (by rw [h])
    · exact Or.inl (by rw [h])

theorem print_grid_text_witness :
    print_grid (gridOf [(1, 0), (2, 1)]) [] = some (gridOf [(1, 0), (2, 1)],
      [] ++ [Char.ofNat 27, '[', 'H', Char.ofNat 27, '[', '2', 'J', Char.ofNat 27, '[', '3', 'J']
        ++ (List.range 20).flatMap (fun y =>
            (List.range 20).map (fun x =>
              if get_cell (gridOf [(1, 0), (2, 1)]) (x : Int) (y : Int) = some ALIVE
                then '*' else '.') ++ ['\n'])) ∧
      ∀ x y : Nat, x < 20 → y < 20 →
        get_cell (gridOf [(1, 0), (2, 1)]) (x : Int) (y : Int) = some ALIVE ∨
          get_cell (gridOf [(1, 0), (2, 1)]) (x : Int) (y : Int) = some DEAD :=
  print_grid_text (gridOf [(1, 0), (2, 1)]) (gridOf_is20x20 _) (gridOf_binary _) []

/-! ## Seeding a glider -/

theorem ite_chain5 (p1 p2 p3 p4 p5 : Prop) [Decidable p1] [Decidable p2] [Decidable p3]
    [Decidable p4] [Decidable p5] (v d : Int) :
    (if p5 then v else if p4 then v else if p3 then v else if p2 then v else
      if p1 then v else d) = if p1 ∨ p2 ∨ p3 ∨ p4 ∨ p5 then v else d := by
  by_cases h1 : p1 <;> by_cases h2 : p2 <;> by_cases h3 : p3 <;> by_cases h4 : p4 <;>
    by_cases h5 : p5 <;> simp [h1, h2, h3, h4, h5]

theorem grid_add_glider_eq (g : Grid) (hg : g.Is20x20) (x y : Int) :
    ∃ g', grid_add_glider g x y = some g' ∧ g'.Is20x20 ∧
      ∀ a b : Int, cellAt g' a b =
        if (a % 20, b % 20) ∈ gliderCells x y then ALIVE else cellAt g a b := by
  have h1 := set_cell_eq g hg (x + 1) y ALIVE
  have hg1 := is20x20_set g hg (torusIndex (x + 1) y) ALIVE
  have h2 := set_cell_eq _ hg1 (x + 2) (y + 1) ALIVE
  have hg2 := is20x20_set _ hg1 (torusIndex (x + 2) (y + 1)) ALIVE
  have h3 := set_cell_eq _ hg2 x (y + 2) ALIVE
  have hg3 := is20x20_set _ hg2 (torusIndex x (y + 2)) ALIVE
  have h4 := set_cell_eq _ hg3 (x + 1) (y + 2) ALIVE
  have hg4 := is20x20_set _ hg3 (torusIndex (x + 1) (y + 2)) ALIVE
  have h5 := set_cell_eq _ hg4 (x + 2) (y + 2) ALIVE
  have hg5 := is20x20_set _ hg4 (torusIndex (x + 2) (y + 2)) ALIVE
  refine ⟨_, ?_, hg5, ?_⟩
  · simp only [grid_add_glider, h1, Option.bind_eq_bind, Option.some_bind, h2, h3, h4]
    exact h5
  · intro a b
    rw [cellAt_set _ hg4, cellAt_set _ hg3, cellAt_set _ hg2, cellAt_set _ hg1, cellAt_set _ hg]
    simp only [gliderCells, List.mem_cons, Prod.mk.injEq, List.not_mem_nil, or_false]
    exact ite_chain5 (a % 20 = (x + 1) % 20 ∧ b % 20 = y % 20)
      (a % 20 = (x + 2) % 20 ∧ b % 20 = (y + 1) % 20)
      (a % 20 = x % 20 ∧ b % 20 = (y + 2) % 20)
      (a % 20 = (x + 1) % 20 ∧ b % 20 = (y + 2) % 20)
      (a % 20 = (x + 2) % 20 ∧ b % 20 = (y + 2) % 20) ALIVE (cellAt g a b)

/-- Claim C10.  On a 20x20 grid, for all integers `x` and `y` with `INT_MIN < x`,
`x + 2 <= INT_MAX`, `INT_MIN < y`, `y + 2 <= INT_MAX` (the five stamped coordinates
are values of type `int` above `INT_MIN`), `grid_add_glider` returns a grid of the
same dimensions in which the five cells at the wrapped coordinates `(x+1, y)`,
`(x+2, y+1)`, `(x, y+2)`, `(x+1, y+2)`, `(x+2, y+2)` are `ALIVE` and every other cell
holds the value it held before. -/
theorem grid_add_glider_spec (g : Grid) (hg : g.Is20x20) (x y : Int)
    (hx : INT_MIN < x) (hx' : x + 2 ≤ INT_MAX) (hy : INT_MIN < y) (hy' : y + 2 ≤ INT_MAX) :
    ∃ g', grid_add_glider g x y = some g' ∧ g'.rows = g.rows ∧ g'.cols = g.cols ∧
      g'.cells.length = g.cells.length ∧
      ∀ a b : Int, 0 ≤ a → a < 20 → 0 ≤ b → b < 20 →
        get_cell g' a b = if (a, b) ∈ gliderCells x y then some ALIVE else get_cell g a b := by
  obtain ⟨g', h1, h2, h3⟩ := grid_add_glider_eq g hg x y
  refine ⟨g', h1, by rw [h2.1, hg.1], by rw [h2.2.1, hg.2.1], by rw [h2.2.2, hg.2.2], ?_⟩
  intro a b ha0 ha1 hb0 hb1
  rw [get_cell_eq g' h2, get_cell_eq g hg, h3 a b, Int.emod_eq_of_lt ha0 ha1,
    Int.emod_eq_of_lt hb0 hb1]
  split_ifs <;> rfl

theorem grid_add_glider_spec_witness :
    ∃ g', grid_add_glider (gridOf [(5, 5), (19, 1)]) 18 19 = some g' ∧
      g'.rows = (gridOf [(5, 5), (19, 1)]).rows ∧ g'.cols = (gridOf [(5, 5), (19, 1)]).cols ∧
      g'.cells.length = (gridOf [(5, 5), (19, 1)]).cells.length ∧
      ∀ a b : Int, 0 ≤ a → a < 20 → 0 ≤ b → b < 20 →
        get_cell g' a b = if (a, b) ∈ gliderCells 18 19 then some ALIVE
          else get_cell (gridOf [(5, 5), (19, 1)]) a b :=
  grid_add_glider_spec (gridOf [(5, 5), (19, 1)]) (gridOf_is20x20 _) 18 19
    (by decide) (by decide) (by decide) (by decide)

theorem gliderCells_edge : gliderCells 18 19 = [(19, 19), (0, 0), (18, 1), (19, 1), (0, 1)] := by
  decide

/-! ## Patterns on the torus -/

theorem pat_congr (A : List (Int × Int)) (u v a b : Int) (hu : a % 20 = u % 20)
    (hv : b % 20 = v % 20) : pat A a b = pat A u v := by
  unfold pat; rw [hu, hv]

theorem patNext_congr (A : List (Int × Int)) (u v a b : Int) (hu : a % 20 = u % 20)
    (hv : b % 20 = v % 20) : patNext A a b = patNext A u v := by
  unfold patNext
  rw [pat_congr A u v a b hu hv,
    pat_congr A (u + -1) (v + -1) (a + -1) (b + -1) (by omega) (by omega),
    pat_congr A u (v + -1) a (b + -1) (by omega) (by omega),
    pat_congr A (u + 1) (v + -1) (a + 1) (b + -1) (by omega) (by omega),
    pat_congr A (u + -1) v (a + -1) b (by omega) (by omega),
    pat_congr A (u + 1) v (a + 1) b (by omega) (by omega),
    pat_congr A (u + -1) (v + 1) (a + -1) (b + 1) (by omega) (by omega),
    pat_congr A u (v + 1) a (b + 1) (by omega) (by omega),
    pat_congr A (u + 1) (v + 1) (a + 1) (b + 1) (by omega) (by omega)]

theorem patNext_of_fin (A A' : List (Int × Int))
    (hfin : ∀ u : Fin 20, ∀ v : Fin 20,
      patNext A (u.val : Int) (v.val : Int) = pat A' (u.val : Int) (v.val : Int))
    (u v : Int) : patNext A u v = pat A' u v := by
  have hu : (u % 20).toNat < 20 := by omega
  have hv : (v % 20).toNat < 20 := by omega
  have key := hfin ⟨(u % 20).toNat, hu⟩ ⟨(v % 20).toNat, hv⟩
  simp only at key
  rw [patNext_congr A u v _ _ (by omega) (by omega),
    pat_congr A' u v _ _ (by omega) (by omega)] at key
  exact key

theorem shows_next (g n : Grid) (A A' : List (Int × Int)) (x y : Int) (hs : Shows g A x y)
    (hstep : ∀ u v : Int, patNext A u v = pat A' u v) : Shows (nextGrid g n) A' x y := by
  intro a b
  rw [cellAt_nextGrid, nextCell, neighbourSum, ← hstep, patNext,
    hs a b, hs (a + -1) (b + -1), hs a (b + -1), hs (a + 1) (b + -1), hs (a + -1) b,
    hs (a + 1) b, hs (a + -1) (b + 1), hs a (b + 1), hs (a + 1) (b + 1)]
  have e1 : a + -1 - x = a - x + -1 := by omega
  have e2 : a + 1 - x = a - x + 1 := by omega
  have e3 : b + -1 - y = b - y + -1 := by omega
  have e4 : b + 1 - y = b - y + 1 := by omega
  rw [e1, e2, e3, e4]

theorem shows_cells_eq (g g' : Grid) (hg : g.Is20x20) (hg' : g'.Is20x20)
    (A A' : List (Int × Int)) (x y x' y' : Int) (hs : Shows g A x y) (hs' : Shows g' A' x' y')
    (hpat : ∀ a b : Int, pat A (a - x) (b - y) = pat A' (a - x') (b - y')) : g = g' := by
  have hc : g.cells = g'.cells :=
    cells_ext g g' hg.2.2 hg'.2.2 (fun a b _ _ _ _ => by rw [hs a b, hs' a b, hpat])
  cases g; cases g'
  simp only [Grid.Is20x20] at hg hg'
  simp only at hc
  simp [hg.1, hg.2.1, hg'.1, hg'.2.1, hc]

theorem ready_update (h : Heap) (new : Nat) (g : Grid) (hg : g.Is20x20) (p : Nat)
    (hp : Ready h p) : Ready (Function.update h new (some g)) p := by
  by_cases hpn : p = new
  · subst hpn; exact ⟨g, by simp, hg⟩
  · obtain ⟨g', h1, h2⟩ := hp
    exact ⟨g', by rw [Function.update_noteq hpn]; exact h1, h2⟩

theorem step_shows (h : Heap) (old new : Nat) (hne : old ≠ new) (o : Grid)
    (ho : h old = some o) (ho20 : o.Is20x20) (hnew : Ready h new)
    (A A' : List (Int × Int)) (x y : Int) (hs : Shows o A x y)
    (hstep : ∀ u v : Int, patNext A u v = pat A' u v) :
    ∃ h' o', compute_new_state h old new = some h' ∧ h' new = some o' ∧ o'.Is20x20 ∧
      Shows o' A' x y ∧ ∀ p, Ready h p → Ready h' p := by
  obtain ⟨n, hn, hn20⟩ := hnew
  exact ⟨_, nextGrid o n, compute_new_state_eq h old new hne o n ho hn ho20 hn20, by simp,
    nextGrid_is20x20 o n hn20, shows_next o n A A' x y hs hstep,
    fun p hp => ready_update h new _ (nextGrid_is20x20 o n hn20) p hp⟩

theorem gliderCells_zero : gliderCells 0 0 = [(1, 0), (2, 1), (0, 2), (1, 2), (2, 2)] := by
  decide

theorem gliderCells_one : gliderCells 1 1 = [(2, 1), (3, 2), (1, 3), (2, 3), (3, 3)] := by
  decide

theorem blockCells_zero : blockCells 0 0 = [(0, 0), (1, 0), (0, 1), (1, 1)] := by
  decide

theorem sub_emod_eq_iff (a x c : Int) (h0 : 0 ≤ c) (h1 : c < 20) :
    (a - x) % 20 = c ↔ a % 20 = (x + c) % 20 := by
  omega

theorem pat_gliderCells (x y a b : Int) :
    pat (gliderCells 0 0) (a - x) (b - y) =
      if (a % 20, b % 20) ∈ gliderCells x y then ALIVE else DEAD := by
  rw [gliderCells_zero]
  unfold pat
  apply if_congr _ rfl rfl
  simp only [gliderCells, List.mem_cons, Prod.mk.injEq, List.not_mem_nil, or_false,
    sub_emod_eq_iff a x 0 (by decide) (by decide), sub_emod_eq_iff a x 1 (by decide) (by decide),
    sub_emod_eq_iff a x 2 (by decide) (by decide), sub_emod_eq_iff b y 0 (by decide) (by decide),
    sub_emod_eq_iff b y 1 (by decide) (by decide), sub_emod_eq_iff b y 2 (by decide) (by decide),
    add_zero]

theorem pat_blockCells (x y a b : Int) :
    pat (blockCells 0 0) (a - x) (b - y) =
      if (a % 20, b % 20) ∈ blockCells x y then ALIVE else DEAD := by
  rw [blockCells_zero]
  unfold pat
  apply if_congr _ rfl rfl
  simp only [blockCells, List.mem_cons, Prod.mk.injEq, List.not_mem_nil, or_false,
    sub_emod_eq_iff a x 0 (by decide) (by decide), sub_emod_eq_iff a x 1 (by decide) (by decide),
    sub_emod_eq_iff b y 0 (by decide) (by decide), sub_emod_eq_iff b y 1 (by decide) (by decide),
    add_zero]

theorem pat_gliderCells_shift (x y a b : Int) :
    pat (gliderCells 1 1) (a - x) (b - y) = pat (gliderCells 0 0) (a - (x + 1)) (b - (y + 1)) := by
  rw [gliderCells_one, gliderCells_zero]
  unfold pat
  apply if_congr _ rfl rfl
  have ea : (a - (x + 1)) % 20 = (a - x - 1) % 20 := by rw [Int.sub_sub]
  have eb : (b - (y + 1)) % 20 = (b - y - 1) % 20 := by rw [Int.sub_sub]
  have e1 : ∀ c : Int, (c - 1) % 20 = 0 ↔ c % 20 = 1 := fun c => by omega
  have e2 : ∀ c : Int, (c - 1) % 20 = 1 ↔ c % 20 = 2 := fun c => by omega
  have e3 : ∀ c : Int, (c - 1) % 20 = 2 ↔ c % 20 = 3 := fun c => by omega
  simp only [List.mem_cons, Prod.mk.injEq, List.not_mem_nil, or_false, ea, eb, e1, e2, e3]

theorem shows_glider (x y : Int) :
    ∃ g, grid_add_glider deadGrid x y = some g ∧ g.Is20x20 ∧ Shows g (gliderCells 0 0) x y := by
  obtain ⟨g, h1, h2, h3⟩ := grid_add_glider_eq deadGrid deadGrid_is20x20 x y
  refine ⟨g, h1, h2, ?_⟩
  intro a b
  rw [h3, cellAt_deadGrid, pat_gliderCells]

theorem glider_gen1 (u v : Int) :
    patNext (gliderCells 0 0) u v = pat [(0, 1), (2, 1), (1, 2), (2, 2), (1, 3)] u v :=
  patNext_of_fin _ _ (by decide!) u v

theorem glider_gen2 (u v : Int) :
    patNext [(0, 1), (2, 1), (1, 2), (2, 2), (1, 3)] u v =
      pat [(2, 1), (0, 2), (2, 2), (1, 3), (2, 3)] u v :=
  patNext_of_fin _ _ (by decide!) u v

theorem glider_gen3 (u v : Int) :
    patNext [(2, 1), (0, 2), (2, 2), (1, 3), (2, 3)] u v =
      pat [(1, 1), (2, 2), (3, 2), (1, 3), (2, 3)] u v :=
  patNext_of_fin _ _ (by decide!) u v

theorem glider_gen4 (u v : Int) :
    patNext [(1, 1), (2, 2), (3, 2), (1, 3), (2, 3)] u v = pat (gliderCells 1 1) u v :=
  patNext_of_fin _ _ (by decide!) u v

theorem block_gen (u v : Int) :
    patNext (blockCells 0 0) u v = pat (blockCells 0 0) u v :=
  patNext_of_fin _ _ (by decide!) u v

/-- Claim C6.  Glider motion.  The grid at `p0` is the all-dead 20x20 grid stamped by
`grid_add_glider` at `(x, y)`; `compute_new_state` is applied four times, the grid
written by each call being the `old` of the next (`p0 → p1 → p2 → p3 → p4`, each
target a 20x20 grid other than its source, so two buffers used alternately
qualify).  All four calls return, and the grid left at `p4` is exactly the all-dead
20x20 grid stamped by `grid_add_glider` at `(x + 1, y + 1)`.  This holds for all
integers `x`, `y` with `INT_MIN < x`, `x + 3 <= INT_MAX`, `INT_MIN < y`,
`y + 3 <= INT_MAX`, so that both stamps stay within the `int` range. -/
theorem glider_motion (h : Heap) (p0 p1 p2 p3 p4 : Nat) (x y : Int)
    (hx : INT_MIN < x) (hx' : x + 3 ≤ INT_MAX) (hy : INT_MIN < y) (hy' : y + 3 ≤ INT_MAX)
    (h01 : p0 ≠ p1) (h12 : p1 ≠ p2) (h23 : p2 ≠ p3) (h34 : p3 ≠ p4)
    (hstart : h p0 = grid_add_glider deadGrid x y)
    (hr1 : Ready h p1) (hr2 : Ready h p2) (hr3 : Ready h p3) (hr4 : Ready h p4) :
    ∃ g, grid_add_glider deadGrid (x + 1) (y + 1) = some g ∧
      (do
        let h1 ← compute_new_state h p0 p1
        let h2 ← compute_new_state h1 p1 p2
        let h3 ← compute_new_state h2 p2 p3
        let h4 ← compute_new_state h3 p3 p4
        h4 p4) = some g := by
  obtain ⟨g0, e0, g0ok, s0⟩ := shows_glider x y
  obtain ⟨g, e, gok, s⟩ := shows_glider (x + 1) (y + 1)
  rw [e0] at hstart
  obtain ⟨h1, g1, c1, e1, g1ok, s1, r1⟩ :=
    step_shows h p0 p1 h01 g0 hstart g0ok hr1 _ _ x y s0 glider_gen1
  obtain ⟨h2, g2, c2, e2, g2ok, s2, r2⟩ :=
    step_shows h1 p1 p2 h12 g1 e1 g1ok (r1 p2 hr2) _ _ x y s1 glider_gen2
  obtain ⟨h3, g3, c3, e3, g3ok, s3, r3⟩ :=
    step_shows h2 p2 p3 h23 g2 e2 g2ok (r2 p3 (r1 p3 hr3)) _ _ x y s2 glider_gen3
  obtain ⟨h4, g4, c4, e4, g4ok, s4, _⟩ :=
    step_shows h3 p3 p4 h34 g3 e3 g3ok (r3 p4 (r2 p4 (r1 p4 hr4))) _ _ x y s3 glider_gen4
  refine ⟨g, e, ?_⟩
  simp only [c1, c2, c3, c4, Option.bind_eq_bind, Option.some_bind, e4]
  rw [shows_cells_eq g4 g g4ok gok _ _ x y (x + 1) (y + 1) s4 s (pat_gliderCells_shift x y)]

theorem stamped_is20x20 (x y : Int) :
    ((grid_add_glider deadGrid x y).getD deadGrid).Is20x20 := by
  obtain ⟨g, e, gok, _⟩ := shows_glider x y
  rw [e]; exact gok

theorem stamped_eq (x y : Int) :
    some ((grid_add_glider deadGrid x y).getD deadGrid) = grid_add_glider deadGrid x y := by
  obtain ⟨g, e, _, _⟩ := shows_glider x y
  rw [e]; rfl

theorem glider_motion_witness :
    ∃ g, grid_add_glider deadGrid (18 + 1) (19 + 1) = some g ∧
      (do
        let h1 ← compute_new_state
          (twoGrids ((grid_add_glider deadGrid 18 19).getD deadGrid) deadGrid) 0 1
        let h2 ← compute_new_state h1 1 0
        let h3 ← compute_new_state h2 0 1
        let h4 ← compute_new_state h3 1 0
        h4 0) = some g :=
  glider_motion (twoGrids ((grid_add_glider deadGrid 18 19).getD deadGrid) deadGrid)
    0 1 0 1 0 18 19 (by decide) (by decide) (by decide) (by decide)
    (by decide) (by decide) (by decide) (by decide) (stamped_eq 18 19)
    ⟨_, rfl, deadGrid_is20x20⟩ ⟨_, rfl, stamped_is20x20 18 19⟩
    ⟨_, rfl, deadGrid_is20x20⟩ ⟨_, rfl, stamped_is20x20 18 19⟩

/-- Claim C7.  Still life.  `old` is a 20x20 grid whose living cells are exactly the
2x2 block at the wrapped coordinates `(x, y)`, `(x+1, y)`, `(x, y+1)`, `(x+1, y+1)`,
every other cell `DEAD`; `new` is another 20x20 grid.  `compute_new_state` returns
and the grid it leaves at `new` equals `old`, cell for cell. -/
theorem block_still_life (h : Heap) (old new : Nat) (o n : Grid) (x y : Int)
    (hne : old ≠ new) (ho : h old = some o) (hn : h new = some n)
    (ho20 : o.Is20x20) (hn20 : n.Is20x20)
    (hblock : ∀ a b : Int, 0 ≤ a → a < 20 → 0 ≤ b → b < 20 →
      get_cell o a b = some (if (a, b) ∈ blockCells x y then ALIVE else DEAD)) :
    ∃ h' n', compute_new_state h old new = some h' ∧ h' new = some n' ∧
      n'.cells = o.cells ∧
      ∀ a b : Int, 0 ≤ a → a < 20 → 0 ≤ b → b < 20 → get_cell n' a b = get_cell o a b := by
  have hs : Shows o (blockCells 0 0) x y := by
    intro a b
    have key := hblock (a % 20) (b % 20) (by omega) (by omega) (by omega) (by omega)
    rw [get_cell_eq o ho20, cellAt_mod] at key
    rw [pat_blockCells, Option.some.inj key]
  have hs' := shows_next o n _ _ x y hs block_gen
  have heq : nextGrid o n = o :=
    shows_cells_eq _ _ (nextGrid_is20x20 o n hn20) ho20 _ _ x y x y hs' hs (fun _ _ => rfl)
  refine ⟨_, nextGrid o n, compute_new_state_eq h old new hne o n ho hn ho20 hn20, by simp, ?_, ?_⟩
  · rw [heq]
  · intro a b _ _ _ _
    rw [heq]

theorem block_still_life_witness :
    ∃ h' n', compute_new_state (twoGrids (gridOf (blockCells 19 19)) deadGrid) 0 1 = some h' ∧
      h' 1 = some n' ∧ n'.cells = (gridOf (blockCells 19 19)).cells ∧
      ∀ a b : Int, 0 ≤ a → a < 20 → 0 ≤ b → b < 20 →
        get_cell n' a b = get_cell (gridOf (blockCells 19 19)) a b :=
  block_still_life (twoGrids (gridOf (blockCells 19 19)) deadGrid) 0 1 _ _ 19 19 (by decide)
    rfl rfl (gridOf_is20x20 _) deadGrid_is20x20 (fun a b ha0 ha1 hb0 hb1 => by
      rw [get_cell_eq _ (gridOf_is20x20 _), cellAt_gridOf]
      simp only [Int.emod_eq_of_lt ha0 ha1, Int.emod_eq_of_lt hb0 hb1])

/-! ## Translation on the torus -/

theorem neighbourSum_shift (g sg : Grid) (a b : Int)
    (hs : ∀ x y : Int, cellAt sg x y = cellAt g (x - a) (y - b)) (x y : Int) :
    neighbourSum sg x y = neighbourSum g (x - a) (y - b) := by
  have e1 : x + -1 - a = x - a + -1 := by omega
  have e2 : x + 1 - a = x - a + 1 := by omega
  have e3 : y + -1 - b = y - b + -1 := by omega
  have e4 : y + 1 - b = y - b + 1 := by omega
  simp only [neighbourSum, hs, e1, e2, e3, e4]

/-- Claim C18.  The generation step commutes with translation on the 20x20 torus.
`g` and `sg` are 20x20 grids with `get_cell sg x y = get_cell g (x - a) (y - b)` for
all integers `x`, `y`; each is the `old` of a call whose target is another 20x20
grid.  Both calls return, and the grid `sr` computed from `sg` is the translate of
the grid `r` computed from `g`: `get_cell sr x y = get_cell r (x - a) (y - b)` for
all integers `x`, `y`, hence at each of the 400 cells. -/
theorem generation_commutes_with_shift (h1 h2 : Heap) (old1 new1 old2 new2 : Nat)
    (g sg n1 n2 : Grid) (a b : Int) (hne1 : old1 ≠ new1) (hne2 : old2 ≠ new2)
    (ho1 : h1 old1 = some g) (ho2 : h2 old2 = some sg)
    (hn1 : h1 new1 = some n1) (hn2 : h2 new2 = some n2)
    (hg : g.Is20x20) (hsg : sg.Is20x20) (hn1ok : n1.Is20x20) (hn2ok : n2.Is20x20)
    (hshift : ∀ x y : Int, get_cell sg x y = get_cell g (x - a) (y - b)) :
    ∃ h1' h2' r sr, compute_new_state h1 old1 new1 = some h1' ∧ h1' new1 = some r ∧
      compute_new_state h2 old2 new2 = some h2' ∧ h2' new2 = some sr ∧
      ∀ x y : Int, get_cell sr x y = get_cell r (x - a) (y - b) := by
  have hs : ∀ x y : Int, cellAt sg x y = cellAt g (x - a) (y - b) := by
    intro x y
    have key := hshift x y
    rw [get_cell_eq sg hsg, get_cell_eq g hg] at key
    exact Option.some.inj key
  refine ⟨_, _, nextGrid g n1, nextGrid sg n2,
    compute_new_state_eq h1 old1 new1 hne1 g n1 ho1 hn1 hg hn1ok, by simp,
    compute_new_state_eq h2 old2 new2 hne2 sg n2 ho2 hn2 hsg hn2ok, by simp, ?_⟩
  intro x y
  rw [get_cell_eq _ (nextGrid_is20x20 sg n2 hn2ok), get_cell_eq _ (nextGrid_is20x20 g n1 hn1ok),
    cellAt_nextGrid, cellAt_nextGrid, nextCell, nextCell, hs x y, neighbourSum_shift g sg a b hs]

theorem generation_commutes_with_shift_witness :
    ∃ h1' h2' r sr,
      compute_new_state (twoGrids (gridOf (gliderCells 0 0)) deadGrid) 0 1 = some h1' ∧
      h1' 1 = some r ∧
      compute_new_state (twoGrids deadGrid (gridOf (gliderCells 18 19))) 1 0 = some h2' ∧
      h2' 0 = some sr ∧
      ∀ x y : Int, get_cell sr x y = get_cell r (x - 18) (y - 19) :=
  generation_commutes_with_shift (twoGrids (gridOf (gliderCells 0 0)) deadGrid)
    (twoGrids deadGrid (gridOf (gliderCells 18 19))) 0 1 1 0
    (gridOf (gliderCells 0 0)) (gridOf (gliderCells 18 19)) deadGrid deadGrid 18 19
    (by decide) (by decide) rfl rfl rfl rfl
    (gridOf_is20x20 _) (gridOf_is20x20 _) deadGrid_is20x20 deadGrid_is20x20
    (fun x y => by
      rw [get_cell_eq _ (gridOf_is20x20 _), get_cell_eq _ (gridOf_is20x20 _), cellAt_gridOf,
        cellAt_gridOf]
      have h := pat_gliderCells 18 19 x y
      simp only [pat] at h
      rw [← h])

/-! ## Grids smaller than the wrapping constants -/

/-- Claim C8, at the failing input.  `old` and `new` are the two distinct grids
returned by `grid_create 3 3`, each with a buffer of 9 cells.  The write of
`compute_new_state` for the cell `(0, 1)` is `set_cell new 0 1`, whose index is 20:
it lands outside the cell buffer of `new`, so the call has no defined result and
memory other than the cell buffer of `new` is written. -/
theorem compute_new_state_writes_outside_new :
    ∃ o n, grid_create 3 3 (some (fun _ => DEAD)) = some o ∧
      grid_create 3 3 (some (fun _ => DEAD)) = some n ∧
      n.cells.length = 9 ∧ (0 : Int) < o.cols ∧ (1 : Int) < o.rows ∧
      cell_to_index n 0 1 = 20 ∧
      set_cell n 0 1 DEAD = none ∧ set_cell n 0 1 ALIVE = none ∧
      compute_new_state (twoGrids o n) 0 1 = none :=
  ⟨_, _, rfl, rfl, by decide, by decide, by decide, by decide, by decide, by decide, rfl⟩

/-- Claim C11, at the failing input.  `grid_create 3 3` with all nine cells `ALIVE`:
for the cell `(0, 0)` the neighbour `(-1, -1)` has index 399, outside the 9-cell
buffer; `count_living_neighbors` has no defined result at any cell `(x, y)` with
`0 <= x, y < 3`, and `compute_new_state` has none either. -/
theorem all_alive_3x3_leaves_buffer :
    ∃ g n, grid_create 3 3 (some (fun _ => ALIVE)) = some g ∧
      grid_create 3 3 (some (fun _ => DEAD)) = some n ∧
      g.cells = [ALIVE, ALIVE, ALIVE, ALIVE, ALIVE, ALIVE, ALIVE, ALIVE, ALIVE] ∧
      cell_to_index g (0 + -1) (0 + -1) = 399 ∧
      (∀ x ∈ ([0, 1, 2] : List Int), ∀ y ∈ ([0, 1, 2] : List Int),
        count_living_neighbors g x y = none) ∧
      compute_new_state (twoGrids g n) 0 1 = none :=
  ⟨_, _, rfl, rfl, by decide, by decide, by decide, rfl⟩

/-- Claim C12, at the failing input.  `grid_create 5 5` with all 25 cells `DEAD`:
`set_cell grid 2 2 ALIVE` addresses index 42, outside the 25-cell buffer, and has no
defined result; on the 5x5 grid whose cell of index `2 * 5 + 2` is the only living
one, `compute_new_state` has no defined result either. -/
theorem single_cell_5x5_leaves_buffer :
    ∃ g n, grid_create 5 5 (some (fun _ => DEAD)) = some g ∧
      grid_create 5 5 (some (fun _ => ALIVE)) = some n ∧
      g.cells.length = 25 ∧ cell_to_index g 2 2 = 42 ∧ set_cell g 2 2 ALIVE = none ∧
      compute_new_state (twoGrids { g with cells := g.cells.set 12 ALIVE } n) 0 1 = none :=
  ⟨_, _, rfl, rfl, by decide, by decide, by decide, rfl⟩

end Life
